import Mathlib

/-!
Shallow embedding of `src/server.js` (BASTA webhook → normalized event
translator and publisher). JavaScript values that flow through the handler
are modelled by the inductive type `JVal`; JS truthiness, the `||` operator,
property access (including the `?.` pattern, since the source only
dereferences possibly-null intermediates through `?.`), and `=== "literal"`
comparisons are modelled explicitly. The dispatch table `templates`, the
webhook request handler, the raw-body middleware and the health endpoint are
translated function-for-function from the source. The handler is modelled as
a function of the request payload, the configured sale id, and the outcome of
the external `redis.publish` call; an uncaught JS exception in the handler is
modelled by the `Outcome.thrown` constructor (in the source, the unhandled
branch at line 137 interpolates the undeclared variable `templateKey`, which
raises a ReferenceError before any response is written).
-/

namespace Basta

/-- JavaScript values as they occur in webhook payloads and responses. -/
inductive JVal where
  | null
  | undefined
  | bool (b : Bool)
  | num (n : Int)
  | str (s : String)
  | obj (fields : List (String × JVal))

/-- Own-property lookup on an object field list: first binding wins,
a missing key yields `undefined`. -/
def lookupField : List (String × JVal) → String → JVal
  | [], _ => .undefined
  | (k, v) :: rest, key => if k = key then v else lookupField rest key

/-- Property access `v.key`: `undefined` on non-objects. The source only
reads properties of possibly-`null`/`undefined` intermediates via `?.`
(`d.content?.title`), whose semantics this matches. -/
def JVal.get : JVal → String → JVal
  | .obj fields, key => lookupField fields key
  | _, _ => .undefined

/-- JavaScript truthiness: `null`, `undefined`, `false`, `0` and `""` are
falsy, everything else (including every object) is truthy. -/
def truthy : JVal → Bool
  | .null => false
  | .undefined => false
  | .bool b => b
  | .num n => n ≠ 0
  | .str s => s ≠ ""
  | .obj _ => true

/-- The JavaScript `||` operator: first operand if truthy, else second. -/
def jor (a b : JVal) : JVal := if truthy a then a else b

/-- The comparison `v === "s"` against a string literal. -/
def strEq (v : JVal) (s : String) : Bool :=
  match v with
  | .str t => t = s
  | _ => false

/-- `templates.BidOnItemV2` (src/server.js lines 32-43). -/
def BidOnItemV2 (d : JVal) : JVal :=
  .obj [("type", .str "BID_RECEIVED"),
        ("data", .obj [
          ("type", .str "BID_RECEIVED"),
          ("userName", jor (d.get "bidderName") (.str "someone")),
          ("amount", jor (d.get "amount") (.num 0)),
          ("bidCount", jor (d.get "bidSequenceNumber") (.num 1)),
          ("bidVelocity", .num 0),
          ("previousLeaderName", jor (d.get "previousBidderName") .null),
          ("itemId", d.get "itemId")])]

/-- `templates.ItemStatusChangedV2` (src/server.js lines 44-85). -/
def ItemStatusChangedV2 (d : JVal) : JVal :=
  let status := jor (d.get "newStatus") (d.get "status")
  if strEq status "ITEM_OPEN" then
    .obj [("type", .str "ITEM_START"),
          ("data", .obj [
            ("type", .str "ITEM_START"),
            ("itemId", d.get "itemId"),
            ("title", jor (d.get "title") (jor ((d.get "content").get "title") (.str "")))])]
  else if strEq status "ITEM_CLOSING" then
    .obj [("type", .str "GOING_ONCE"),
          ("data", .obj [
            ("type", .str "GOING_ONCE"),
            ("currentBid", jor (d.get "currentBid") (.num 0)),
            ("leaderName", jor (d.get "leadingBidderName") (.str "the leader"))])]
  else if strEq status "ITEM_CLOSED" then
    if truthy (d.get "closedWithBids") then
      .obj [("type", .str "ITEM_CLOSED_SOLD"),
            ("data", .obj [
              ("type", .str "ITEM_CLOSED_SOLD"),
              ("winnerName", jor (d.get "winnerName") (.str "the winner")),
              ("finalPrice", jor (d.get "finalPrice") (.num 0)),
              ("totalBids", jor (d.get "totalBids") (.num 0)),
              ("title", jor (d.get "title") (jor ((d.get "content").get "title") (.str "")))])]
    else
      .obj [("type", .str "ITEM_CLOSED_PASSED"),
            ("data", .obj [
              ("type", .str "ITEM_CLOSED_PASSED"),
              ("title", jor (d.get "title") (jor ((d.get "content").get "title") (.str ""))),
              ("reason", .str "No bids received")])]
  else .null

/-- `templates.SaleStatusChangedV2` (src/server.js lines 86-102). -/
def SaleStatusChangedV2 (d : JVal) : JVal :=
  let status := jor (d.get "newStatus") (d.get "status")
  if strEq status "OPENED" then
    .obj [("type", .str "AUCTION_START"),
          ("data", .obj [
            ("type", .str "AUCTION_START"),
            ("auctionTitle", jor (d.get "title") (jor ((d.get "content").get "title") (.str "the auction"))),
            ("totalItems", jor (d.get "totalItems") (.num 0))])]
  else if strEq status "CLOSED" then
    .obj [("type", .str "AUCTION_END"),
          ("data", .obj [("type", .str "AUCTION_END")])]
  else .null

/-- `templates.SaleUpdated` (src/server.js lines 103-111). -/
def SaleUpdated (d : JVal) : JVal :=
  .obj [("type", .str "SALE_UPDATED"),
        ("data", .obj [
          ("type", .str "SALE_UPDATED"),
          ("saleId", d.get "saleId"),
          ("title", jor ((d.get "content").get "title") (.str "")),
          ("saleType", jor (d.get "saleType") (.str ""))])]

/-- `templates.ItemUpdated` (src/server.js lines 112-119). -/
def ItemUpdated (d : JVal) : JVal :=
  .obj [("type", .str "ITEM_UPDATED"),
        ("data", .obj [
          ("type", .str "ITEM_UPDATED"),
          ("itemId", d.get "itemId"),
          ("title", jor ((d.get "content").get "title") (jor (d.get "title") (.str "")))])]

/-- The dispatch table `templates` keyed by action-type string
(own keys only). -/
def templates (s : String) : Option (JVal → JVal) :=
  if s = "BidOnItemV2" then some BidOnItemV2
  else if s = "ItemStatusChangedV2" then some ItemStatusChangedV2
  else if s = "SaleStatusChangedV2" then some SaleStatusChangedV2
  else if s = "SaleUpdated" then some SaleUpdated
  else if s = "ItemUpdated" then some ItemUpdated
  else none

/-- The own-property part of `templates[eventType]`: a non-string key is
coerced to a string such as `"undefined"` or `"5"`, never an own key of the
table. JS property access also walks the prototype chain; that part is
modelled by `inheritedProp` below and handled separately in the handler. -/
def templatesLookup : JVal → Option (JVal → JVal)
  | .str s => templates s
  | _ => none

/-- Property names every object literal inherits from `Object.prototype`.
For these keys `templates[eventType]` finds the inherited (truthy, callable)
member, so the `if (!mapper)` branch at line 136 is NOT taken. -/
def objectProtoKeys : List String :=
  ["constructor", "hasOwnProperty", "isPrototypeOf", "propertyIsEnumerable",
   "toLocaleString", "toString", "valueOf", "__proto__",
   "__defineGetter__", "__defineSetter__", "__lookupGetter__", "__lookupSetter__"]

/-- Does `templates[key]` hit a property inherited from `Object.prototype`?
A non-string key is coerced to a string such as `"undefined"`, `"null"`,
`"true"` or `"5"`, none of which is an inherited property name. -/
def inheritedProp : JVal → Bool
  | .str s => objectProtoKeys.contains s
  | _ => false

/-- Is the value `null` or `undefined`? Reading a property of such a value
without `?.` throws a TypeError in JS. -/
def nullish : JVal → Bool
  | .null => true
  | .undefined => true
  | _ => false

/-- Line 130: `const eventType = payload.actionType || payload.type`. -/
def extractEventType (payload : JVal) : JVal :=
  jor (payload.get "actionType") (payload.get "type")

/-- Line 131: `const data = payload.data || payload`. -/
def extractData (payload : JVal) : JVal :=
  jor (payload.get "data") payload

/-- A `redis.publish(channel, message)` call made by the handler. -/
structure PublishAttempt where
  channel : String
  message : JVal

/-- Outcome of one request: an uncaught exception (no response is written —
Express 4 does not catch a rejection from an `async` handler); or the
dispatch lookup hit a member inherited from `Object.prototype`, in which
case the program calls that inherited function and continues (a path no
claim concerns, left abstract here); or an HTTP response with status, JSON
body and the publish call made, if any. -/
inductive Outcome where
  | thrown (err : String)
  | inheritedCall
  | replied (status : Nat) (body : JVal) (publish : Option PublishAttempt)

/-- The publish call recorded by the model during the request, if any. The
`inheritedCall` continuation is not modelled, so no publish is recorded for
it; theorems therefore only read `publishOf` under hypotheses that exclude
that outcome. -/
def publishOf : Outcome → Option PublishAttempt
  | .thrown _ => none
  | .inheritedCall => none
  | .replied _ _ p => p

/-- Body `{ ok: true, handled: false }`. -/
def okFalse : JVal := .obj [("ok", .bool true), ("handled", .bool false)]

/-- Lines 130-157 of `app.post("/webhook")`, reached when `payload` is not
nullish (so the property reads on lines 130-131 do not throw). The dispatch
lookup `templates[eventType]` finds an own key, or an inherited
`Object.prototype` member (truthy, so the unhandled branch is skipped and
the inherited function is called — left abstract), or nothing: then the
unhandled branch interpolates the undeclared variable `templateKey` into a
template literal (line 137), raising a ReferenceError before
`res.status(200)` runs. -/
def webhookCore (saleId : String) (payload : JVal)
    (publishResult : Except String Unit) : Outcome :=
  match templatesLookup (extractEventType payload) with
  | none =>
    if inheritedProp (extractEventType payload) then .inheritedCall
    else .thrown "ReferenceError: templateKey is not defined"
  | some mapper =>
    if ¬ truthy (mapper (extractData payload)) then
      .replied 200 okFalse none
    else
      match publishResult with
      | .ok _ =>
        .replied 200
          (.obj [("ok", .bool true), ("handled", .bool true),
                 ("type", (mapper (extractData payload)).get "type")])
          (some ⟨"agent:events:" ++ saleId, mapper (extractData payload)⟩)
      | .error _ =>
        .replied 200
          (.obj [("ok", .bool true), ("handled", .bool true),
                 ("type", (mapper (extractData payload)).get "type")])
          (some ⟨"agent:events:" ++ saleId, mapper (extractData payload)⟩)

/-- `app.post("/webhook")` (src/server.js lines 123-157). `saleId` is the
`SALE_ID` configuration, `publishResult` the outcome of the external
`redis.publish` call (`.error` models a rejection). A `null` body (JSON
text `null`) makes line 130 read `payload.actionType` without `?.`, which
throws a TypeError; otherwise processing continues in `webhookCore`. -/
def webhookHandler (saleId : String) (payload : JVal)
    (publishResult : Except String Unit) : Outcome :=
  if nullish payload then .thrown "TypeError: Cannot read properties of null"
  else webhookCore saleId payload publishResult

/-- The raw-body middleware (src/server.js lines 9-21): the raw stream is
read regardless of content type; an empty body becomes the empty object; a
parse failure (`parse body = none` models `JSON.parse` throwing) keeps the
body in a raw-string fallback field. -/
def middlewareBody (body : String) (parse : String → Option JVal) : JVal :=
  if body = "" then .obj []
  else
    match parse body with
    | some v => v
    | none => .obj [("_raw", .str body)]

/-- State of the module-level `redis` client handle: `none` before `start`
assigns it, `some c` afterwards, with `c.isReady` true once the connection
is established. -/
structure RedisClient where
  isReady : Bool

/-- `app.get("/health")` (src/server.js lines 160-162):
`redis?.isReady ? "connected" : "disconnected"`. -/
def healthResponse (redis : Option RedisClient) : JVal :=
  .obj [("status", .str "ok"),
        ("redis", .str (if (match redis with
                            | some c => c.isReady
                            | none => false) then "connected" else "disconnected"))]

/-- Read field `k` of the inner `data` record of a normalized event. -/
def dataField (e : JVal) (k : String) : JVal := (e.get "data").get k

/-- Follow a path of property names from a data object. -/
def pick (d : JVal) (path : List String) : JVal := path.foldl JVal.get d

/-- Spec-side extraction policy (for the refinement statements): try an
ordered list of candidate field paths in sequence, first truthy value wins,
and fall back to a literal default when every candidate is absent or falsy. -/
def firstTruthy (d : JVal) (paths : List (List String)) (dflt : JVal) : JVal :=
  match paths with
  | [] => dflt
  | p :: rest => jor (pick d p) (firstTruthy d rest dflt)

/-! ## Helper lemmas -/

/-- A `=== "literal"` comparison succeeds exactly on that string value. -/
theorem strEq_true_iff (v : JVal) (s : String) : strEq v s = true ↔ v = .str s := by
  cases v <;> simp [strEq]

/-- On a nullish payload both extraction reads give `undefined` (they are
never reached in the source, which throws first; the lemma lets proofs rule
the nullish case out from a hypothesis about the extracted event type). -/
theorem extractEventType_of_nullish (payload : JVal) (h : nullish payload = true) :
    extractEventType payload = .undefined := by
  cases payload <;> simp [nullish] at h <;> rfl

/-- On a non-nullish payload the handler runs its core. -/
theorem webhookHandler_not_null (saleId : String) (payload : JVal)
    (r : Except String Unit) (hnn : nullish payload = false) :
    webhookHandler saleId payload r = webhookCore saleId payload r := by
  simp [webhookHandler, hnn]

/-- The inner discriminator of every `ItemStatusChangedV2` output matches
the outer tag (vacuously so for the `null` output, where both reads give
`undefined`). -/
theorem inner_type_ItemStatusChangedV2 (d : JVal) :
    dataField (ItemStatusChangedV2 d) "type" = (ItemStatusChangedV2 d).get "type" := by
  simp only [ItemStatusChangedV2]
  split_ifs <;> rfl

/-- The inner discriminator of every `SaleStatusChangedV2` output matches
the outer tag. -/
theorem inner_type_SaleStatusChangedV2 (d : JVal) :
    dataField (SaleStatusChangedV2 d) "type" = (SaleStatusChangedV2 d).get "type" := by
  simp only [SaleStatusChangedV2]
  split_ifs <;> rfl

/-! ## Claim theorems -/

/-- Claim C1 (code bug): for every non-null payload whose extracted event
type names neither an own key of the dispatch table nor a property
inherited from `Object.prototype`, the handler does NOT respond: line 137
interpolates the undeclared variable `templateKey` and throws a
ReferenceError before `res.status(200).json` runs. No event is published.
The two excluded cases diverge differently: an inherited key such as
`"toString"` skips the unhandled branch entirely (modelled as
`inheritedCall`), and the JSON body `null` already throws a TypeError at
line 130. -/
theorem unknown_action_type_throws_ReferenceError (saleId : String) (payload : JVal)
    (r : Except String Unit)
    (hnn : nullish payload = false)
    (h : templatesLookup (extractEventType payload) = none)
    (hi : inheritedProp (extractEventType payload) = false) :
    webhookHandler saleId payload r = .thrown "ReferenceError: templateKey is not defined"
    ∧ publishOf (webhookHandler saleId payload r) = none := by
  have hmain : webhookHandler saleId payload r
      = .thrown "ReferenceError: templateKey is not defined" := by
    rw [webhookHandler_not_null saleId payload r hnn]
    unfold webhookCore
    rw [h]
    simp [hi]
  exact ⟨hmain, by rw [hmain]; rfl⟩

/-- Witness for C1: the unknown action type `"SomethingElse"` makes the
handler throw instead of answering `handled: false`. -/
theorem unknown_action_type_throws_ReferenceError_witness :
    webhookHandler "test" (.obj [("actionType", .str "SomethingElse")]) (.ok ())
      = .thrown "ReferenceError: templateKey is not defined"
    ∧ publishOf (webhookHandler "test" (.obj [("actionType", .str "SomethingElse")]) (.ok ())) = none :=
  unknown_action_type_throws_ReferenceError "test"
    (.obj [("actionType", .str "SomethingElse")]) (.ok ()) rfl rfl rfl

/-- Counterexample to C2 as stated: `bidderName` is present with the falsy
value `""`, yet the output `userName` is the default `"someone"`, not the
present value — extraction is first-truthy-wins, not first-non-null-wins. -/
theorem present_falsy_bidderName_not_kept :
    dataField (BidOnItemV2 (.obj [("bidderName", .str ""), ("itemId", .str "x1")])) "userName"
      = .str "someone"
    ∧ JVal.str "someone" ≠ JVal.str "" :=
  ⟨rfl, by simp⟩

/-- Claim C2 (amended): for every template and every logical output field,
extraction takes the first truthy candidate among the listed source field
paths and substitutes the documented literal default when every candidate
is absent or falsy; a truthy present value is kept, and absent `bidderName`
yields `userName = "someone"`. Status-dependent fields are stated under the
status that makes their variant fire; fields without a default
(`itemId`, `saleId`) copy the source field, and `bidVelocity` is the
constant `0`. -/
theorem field_extraction_first_truthy_wins (d : JVal) :
    dataField (BidOnItemV2 d) "userName" = firstTruthy d [["bidderName"]] (.str "someone")
    ∧ dataField (BidOnItemV2 d) "amount" = firstTruthy d [["amount"]] (.num 0)
    ∧ dataField (BidOnItemV2 d) "bidCount" = firstTruthy d [["bidSequenceNumber"]] (.num 1)
    ∧ dataField (BidOnItemV2 d) "previousLeaderName"
        = firstTruthy d [["previousBidderName"]] .null
    ∧ dataField (BidOnItemV2 d) "bidVelocity" = .num 0
    ∧ dataField (BidOnItemV2 d) "itemId" = d.get "itemId"
    ∧ (strEq (jor (d.get "newStatus") (d.get "status")) "ITEM_OPEN" = true →
        dataField (ItemStatusChangedV2 d) "title"
          = firstTruthy d [["title"], ["content", "title"]] (.str "")
        ∧ dataField (ItemStatusChangedV2 d) "itemId" = d.get "itemId")
    ∧ (strEq (jor (d.get "newStatus") (d.get "status")) "ITEM_CLOSING" = true →
        dataField (ItemStatusChangedV2 d) "currentBid" = firstTruthy d [["currentBid"]] (.num 0)
        ∧ dataField (ItemStatusChangedV2 d) "leaderName"
            = firstTruthy d [["leadingBidderName"]] (.str "the leader"))
    ∧ (strEq (jor (d.get "newStatus") (d.get "status")) "ITEM_CLOSED" = true →
        truthy (d.get "closedWithBids") = true →
        dataField (ItemStatusChangedV2 d) "winnerName"
          = firstTruthy d [["winnerName"]] (.str "the winner")
        ∧ dataField (ItemStatusChangedV2 d) "finalPrice" = firstTruthy d [["finalPrice"]] (.num 0)
        ∧ dataField (ItemStatusChangedV2 d) "totalBids" = firstTruthy d [["totalBids"]] (.num 0)
        ∧ dataField (ItemStatusChangedV2 d) "title"
            = firstTruthy d [["title"], ["content", "title"]] (.str ""))
    ∧ (strEq (jor (d.get "newStatus") (d.get "status")) "ITEM_CLOSED" = true →
        truthy (d.get "closedWithBids") = false →
        dataField (ItemStatusChangedV2 d) "title"
          = firstTruthy d [["title"], ["content", "title"]] (.str ""))
    ∧ (strEq (jor (d.get "newStatus") (d.get "status")) "OPENED" = true →
        dataField (SaleStatusChangedV2 d) "auctionTitle"
          = firstTruthy d [["title"], ["content", "title"]] (.str "the auction")
        ∧ dataField (SaleStatusChangedV2 d) "totalItems" = firstTruthy d [["totalItems"]] (.num 0))
    ∧ dataField (SaleUpdated d) "saleId" = d.get "saleId"
    ∧ dataField (SaleUpdated d) "title" = firstTruthy d [["content", "title"]] (.str "")
    ∧ dataField (SaleUpdated d) "saleType" = firstTruthy d [["saleType"]] (.str "")
    ∧ dataField (ItemUpdated d) "itemId" = d.get "itemId"
    ∧ dataField (ItemUpdated d) "title"
        = firstTruthy d [["content", "title"], ["title"]] (.str "")
    ∧ (truthy (d.get "bidderName") = true →
        dataField (BidOnItemV2 d) "userName" = d.get "bidderName")
    ∧ (d.get "bidderName" = .undefined →
        dataField (BidOnItemV2 d) "userName" = .str "someone") := by
  refine ⟨rfl, rfl, rfl, rfl, rfl, rfl, ?_, ?_, ?_, ?_, ?_, rfl, rfl, rfl, rfl, rfl, ?_, ?_⟩
  · intro h
    have hst := (strEq_true_iff _ _).mp h
    simp only [ItemStatusChangedV2, hst]
    simp [strEq, dataField, JVal.get, lookupField, firstTruthy, pick, jor]
  · intro h
    have hst := (strEq_true_iff _ _).mp h
    simp only [ItemStatusChangedV2, hst]
    simp [strEq, dataField, JVal.get, lookupField, firstTruthy, pick, jor]
  · intro h hb
    have hst := (strEq_true_iff _ _).mp h
    simp only [ItemStatusChangedV2, hst, hb]
    simp [strEq, dataField, JVal.get, lookupField, firstTruthy, pick, jor]
  · intro h hb
    have hst := (strEq_true_iff _ _).mp h
    simp only [ItemStatusChangedV2, hst, hb]
    simp [strEq, dataField, JVal.get, lookupField, firstTruthy, pick, jor]
  · intro h
    have hst := (strEq_true_iff _ _).mp h
    simp only [SaleStatusChangedV2, hst]
    simp [strEq, dataField, JVal.get, lookupField, firstTruthy, pick, jor]
  · intro h
    show jor (d.get "bidderName") (.str "someone") = d.get "bidderName"
    simp [jor, h]
  · intro h
    show jor (d.get "bidderName") (.str "someone") = .str "someone"
    simp [jor, h, truthy]

/-- Witness for C2 (amended): a status-dependent default (`leaderName` of
`GOING_ONCE`), a truthy `bidderName` kept, and an absent `bidderName`
falling back to `"someone"`. -/
theorem field_extraction_first_truthy_wins_witness :
    dataField (ItemStatusChangedV2 (.obj [("newStatus", .str "ITEM_CLOSING")])) "leaderName"
      = .str "the leader"
    ∧ dataField (BidOnItemV2 (.obj [("bidderName", .str "alice")])) "userName" = .str "alice"
    ∧ dataField (BidOnItemV2 (.obj [("amount", .num 50)])) "userName" = .str "someone" :=
  ⟨((field_extraction_first_truthy_wins
      (.obj [("newStatus", .str "ITEM_CLOSING")])).2.2.2.2.2.2.2.1 rfl).2,
   (field_extraction_first_truthy_wins
      (.obj [("bidderName", .str "alice")])).2.2.2.2.2.2.2.2.2.2.2.2.2.2.2.2.1 rfl,
   (field_extraction_first_truthy_wins
      (.obj [("amount", .num 50)])).2.2.2.2.2.2.2.2.2.2.2.2.2.2.2.2.2 rfl⟩

/-- Counterexample to C3 as stated: a body whose discriminator sits in the
`eventType` field extracts to `undefined` (the code only consults
`actionType` then `type`), and a body whose payload sits in the `payload`
field extracts to the whole body (the code only consults `data`). -/
theorem discriminator_ignores_other_field_names :
    extractEventType (.obj [("eventType", .str "BidOnItemV2")]) = .undefined
    ∧ JVal.undefined ≠ JVal.str "BidOnItemV2"
    ∧ extractData (.obj [("payload", .obj [("amount", .num 1)])])
        = .obj [("payload", .obj [("amount", .num 1)])] :=
  ⟨rfl, by simp, rfl⟩

/-- Claim C3 (amended): the discriminator is extracted with fallback across
`actionType` then `type` only, and the data object with fallback across
`data` then the whole body; `eventType`, `action`, `event` and `payload`
fields are never consulted. -/
theorem extraction_fallback_actionType_then_type (p : JVal) :
    (truthy (p.get "actionType") = true → extractEventType p = p.get "actionType")
    ∧ (truthy (p.get "actionType") = false → extractEventType p = p.get "type")
    ∧ (truthy (p.get "data") = true → extractData p = p.get "data")
    ∧ (truthy (p.get "data") = false → extractData p = p)
    ∧ extractEventType (.obj [("type", .str "X")]) = .str "X"
    ∧ extractEventType (.obj [("eventType", .str "X"), ("action", .str "X"), ("event", .str "X")])
        = .undefined := by
  refine ⟨?_, ?_, ?_, ?_, rfl, rfl⟩ <;>
    (intro h; first
      | (show jor (p.get "actionType") (p.get "type") = _; simp [jor, h])
      | (show jor (p.get "data") p = _; simp [jor, h]))

/-- Witness for C3 (amended): `actionType` wins over `type`; with neither,
the `type` field (here absent) is used. -/
theorem extraction_fallback_actionType_then_type_witness :
    extractEventType (.obj [("actionType", .str "A"), ("type", .str "B")]) = .str "A"
    ∧ extractData (.obj [("data", .obj [("k", .num 1)])]) = .obj [("k", .num 1)] :=
  ⟨(extraction_fallback_actionType_then_type
      (.obj [("actionType", .str "A"), ("type", .str "B")])).1 rfl,
   (extraction_fallback_actionType_then_type
      (.obj [("data", .obj [("k", .num 1)])])).2.2.1 rfl⟩

/-- Claim C4: the documented `BidOnItemV2` example input normalizes to
exactly the documented event, the handler reports
`ok: true, handled: true, type: "BID_RECEIVED"`, and the event is published
to channel `agent:events:` followed by the sale id, whatever the publish
outcome. -/
theorem bid_example_normalized_and_published (saleId : String) (r : Except String Unit) :
    webhookHandler saleId
        (.obj [("actionType", .str "BidOnItemV2"),
               ("data", .obj [("amount", .num 50), ("itemId", .str "x1")])]) r
      = .replied 200
          (.obj [("ok", .bool true), ("handled", .bool true), ("type", .str "BID_RECEIVED")])
          (some ⟨"agent:events:" ++ saleId,
            .obj [("type", .str "BID_RECEIVED"),
                  ("data", .obj [
                    ("type", .str "BID_RECEIVED"),
                    ("userName", .str "someone"),
                    ("amount", .num 50),
                    ("bidCount", .num 1),
                    ("bidVelocity", .num 0),
                    ("previousLeaderName", .null),
                    ("itemId", .str "x1")])]⟩) := by
  cases r <;> rfl

/-- Claim C5: with status `ITEM_CLOSED`, a truthy `closedWithBids` selects
`ITEM_CLOSED_SOLD` and otherwise the output is `ITEM_CLOSED_PASSED` with
reason `"No bids received"`; the documented example input produces exactly
the documented event. -/
theorem item_closed_sold_or_passed (d : JVal)
    (h : strEq (jor (d.get "newStatus") (d.get "status")) "ITEM_CLOSED" = true) :
    (truthy (d.get "closedWithBids") = true →
      (ItemStatusChangedV2 d).get "type" = .str "ITEM_CLOSED_SOLD")
    ∧ (truthy (d.get "closedWithBids") = false →
        (ItemStatusChangedV2 d).get "type" = .str "ITEM_CLOSED_PASSED"
        ∧ dataField (ItemStatusChangedV2 d) "reason" = .str "No bids received")
    ∧ ItemStatusChangedV2
        (.obj [("newStatus", .str "ITEM_CLOSED"), ("closedWithBids", .bool false),
               ("title", .str "Lot 3")])
      = .obj [("type", .str "ITEM_CLOSED_PASSED"),
              ("data", .obj [("type", .str "ITEM_CLOSED_PASSED"), ("title", .str "Lot 3"),
                             ("reason", .str "No bids received")])] := by
  have hst : jor (d.get "newStatus") (d.get "status") = .str "ITEM_CLOSED" :=
    (strEq_true_iff _ _).mp h
  refine ⟨?_, ?_, rfl⟩
  · intro hb
    simp only [ItemStatusChangedV2, hst, hb]
    simp [strEq, JVal.get, lookupField]
  · intro hb
    simp only [ItemStatusChangedV2, hst, hb]
    simp [strEq, dataField, JVal.get, lookupField]

/-- Witness for C5, at the documented example input. -/
theorem item_closed_sold_or_passed_witness :
    ItemStatusChangedV2
        (.obj [("newStatus", .str "ITEM_CLOSED"), ("closedWithBids", .bool false),
               ("title", .str "Lot 3")])
      = .obj [("type", .str "ITEM_CLOSED_PASSED"),
              ("data", .obj [("type", .str "ITEM_CLOSED_PASSED"), ("title", .str "Lot 3"),
                             ("reason", .str "No bids received")])] :=
  (item_closed_sold_or_passed
    (.obj [("newStatus", .str "ITEM_CLOSED"), ("closedWithBids", .bool false),
           ("title", .str "Lot 3")]) rfl).2.2

/-- Claim C6: for the status-branching action types, a status matching no
case makes the template return `null`, and the handler then replies
`200 { ok: true, handled: false }` without publishing. -/
theorem unmatched_status_returns_null_handled_false (saleId : String) (payload : JVal)
    (r : Except String Unit) :
    (extractEventType payload = .str "ItemStatusChangedV2" →
      strEq (jor ((extractData payload).get "newStatus") ((extractData payload).get "status"))
          "ITEM_OPEN" = false →
      strEq (jor ((extractData payload).get "newStatus") ((extractData payload).get "status"))
          "ITEM_CLOSING" = false →
      strEq (jor ((extractData payload).get "newStatus") ((extractData payload).get "status"))
          "ITEM_CLOSED" = false →
      ItemStatusChangedV2 (extractData payload) = .null
      ∧ webhookHandler saleId payload r = .replied 200 okFalse none)
    ∧ (extractEventType payload = .str "SaleStatusChangedV2" →
        strEq (jor ((extractData payload).get "newStatus") ((extractData payload).get "status"))
            "OPENED" = false →
        strEq (jor ((extractData payload).get "newStatus") ((extractData payload).get "status"))
            "CLOSED" = false →
        SaleStatusChangedV2 (extractData payload) = .null
        ∧ webhookHandler saleId payload r = .replied 200 okFalse none) := by
  constructor
  · intro he h1 h2 h3
    have hnull : ItemStatusChangedV2 (extractData payload) = .null := by
      simp only [ItemStatusChangedV2, h1, h2, h3]
      simp
    have hnn : nullish payload = false := by
      cases hq : nullish payload
      · rfl
      · rw [extractEventType_of_nullish payload hq] at he
        simp at he
    refine ⟨hnull, ?_⟩
    rw [webhookHandler_not_null saleId payload r hnn]
    unfold webhookCore
    rw [he]
    simp [templatesLookup, templates, hnull, truthy]
  · intro he h1 h2
    have hnull : SaleStatusChangedV2 (extractData payload) = .null := by
      simp only [SaleStatusChangedV2, h1, h2]
      simp
    have hnn : nullish payload = false := by
      cases hq : nullish payload
      · rfl
      · rw [extractEventType_of_nullish payload hq] at he
        simp at he
    refine ⟨hnull, ?_⟩
    rw [webhookHandler_not_null saleId payload r hnn]
    unfold webhookCore
    rw [he]
    simp [templatesLookup, templates, hnull, truthy]

/-- Witness for C6: an `ItemStatusChangedV2` event with the unmatched status
`"BANANA"` is skipped with `handled: false` and nothing is published. -/
theorem unmatched_status_returns_null_handled_false_witness :
    webhookHandler "test"
        (.obj [("actionType", .str "ItemStatusChangedV2"),
               ("data", .obj [("newStatus", .str "BANANA")])]) (.ok ())
      = .replied 200 okFalse none :=
  ((unmatched_status_returns_null_handled_false "test"
      (.obj [("actionType", .str "ItemStatusChangedV2"),
             ("data", .obj [("newStatus", .str "BANANA")])]) (.ok ())).1
    rfl rfl rfl rfl).2

/-- Claim C7: whenever translation succeeds, the handler replies
`200 { ok: true, handled: true, type: ... }` and makes exactly one publish
call on `agent:events:` followed by the sale id — and the reply is the same
whether the publish call succeeds or throws, since the failure is caught. -/
theorem publish_failure_never_changes_response (saleId : String) (payload : JVal)
    (r : Except String Unit) (mapper : JVal → JVal)
    (hm : templatesLookup (extractEventType payload) = some mapper)
    (ht : truthy (mapper (extractData payload)) = true) :
    webhookHandler saleId payload r
      = .replied 200
          (.obj [("ok", .bool true), ("handled", .bool true),
                 ("type", (mapper (extractData payload)).get "type")])
          (some ⟨"agent:events:" ++ saleId, mapper (extractData payload)⟩) := by
  have hnn : nullish payload = false := by
    cases hq : nullish payload
    · rfl
    · rw [extractEventType_of_nullish payload hq] at hm
      simp [templatesLookup] at hm
  rw [webhookHandler_not_null saleId payload r hnn]
  unfold webhookCore
  rw [hm]
  cases r <;> simp [ht]

/-- Witness for C7: a successfully translated bid with a throwing publish
call still gets the success response, and the publish was attempted. -/
theorem publish_failure_never_changes_response_witness :
    webhookHandler "s1"
        (.obj [("actionType", .str "BidOnItemV2"),
               ("data", .obj [("bidderName", .str "bob"), ("amount", .num 7)])])
        (.error "connection lost")
      = .replied 200
          (.obj [("ok", .bool true), ("handled", .bool true), ("type", .str "BID_RECEIVED")])
          (some ⟨"agent:events:s1",
            .obj [("type", .str "BID_RECEIVED"),
                  ("data", .obj [
                    ("type", .str "BID_RECEIVED"),
                    ("userName", .str "bob"),
                    ("amount", .num 7),
                    ("bidCount", .num 1),
                    ("bidVelocity", .num 0),
                    ("previousLeaderName", .null),
                    ("itemId", .undefined)])]⟩) :=
  publish_failure_never_changes_response "s1"
    (.obj [("actionType", .str "BidOnItemV2"),
           ("data", .obj [("bidderName", .str "bob"), ("amount", .num 7)])])
    (.error "connection lost") BidOnItemV2 rfl rfl

/-- Claim C8 (code bug): every non-empty body on which the JSON parse throws
is retained as the raw-string fallback object keyed `_raw`; but the request
is then NOT answered with `handled: false` — the unhandled-event branch
throws the `templateKey` ReferenceError instead. -/
theorem unparsable_body_kept_raw_then_handler_throws (body : String)
    (parse : String → Option JVal) (saleId : String) (r : Except String Unit)
    (hne : body ≠ "") (hp : parse body = none) :
    middlewareBody body parse = .obj [("_raw", .str body)]
    ∧ webhookHandler saleId (middlewareBody body parse) r
        = .thrown "ReferenceError: templateKey is not defined" := by
  have h1 : middlewareBody body parse = .obj [("_raw", .str body)] := by
    simp [middlewareBody, hne, hp]
  refine ⟨h1, ?_⟩
  rw [h1]
  rfl

/-- Witness for C8: the unparsable body `"hello"` is kept as
`{ _raw: "hello" }` and the handler then throws. -/
theorem unparsable_body_kept_raw_then_handler_throws_witness :
    middlewareBody "hello" (fun _ => none) = .obj [("_raw", .str "hello")]
    ∧ webhookHandler "test" (middlewareBody "hello" (fun _ => none)) (.ok ())
        = .thrown "ReferenceError: templateKey is not defined" :=
  unparsable_body_kept_raw_then_handler_throws "hello" (fun _ => none) "test" (.ok ())
    (by decide) rfl

/-- Claim C9: the health endpoint always reports status `"ok"`, and reports
`redis: "connected"` exactly when a client exists and its connection is
ready — in particular `"disconnected"` both before `start` assigns the
client and while the connection is pending, and `"connected"` afterwards. -/
theorem health_reflects_connection_state (redis : Option RedisClient) :
    ((healthResponse redis).get "redis" = .str "connected" ↔ redis = some ⟨true⟩)
    ∧ (healthResponse redis).get "status" = .str "ok"
    ∧ healthResponse none = .obj [("status", .str "ok"), ("redis", .str "disconnected")]
    ∧ healthResponse (some ⟨false⟩)
        = .obj [("status", .str "ok"), ("redis", .str "disconnected")]
    ∧ healthResponse (some ⟨true⟩)
        = .obj [("status", .str "ok"), ("redis", .str "connected")] := by
  refine ⟨?_, ?_, rfl, rfl, rfl⟩
  · rcases redis with _ | ⟨b⟩
    · simp [healthResponse, JVal.get, lookupField]
    · cases b
      all_goals simp [healthResponse, JVal.get, lookupField]
  · rcases redis with _ | ⟨b⟩
    · rfl
    · cases b
      all_goals rfl

/-- Claim C10: for every dispatch-table entry and every data object on which
it produces a truthy (non-null) normalized event, the inner discriminator
equals the outer tag: `event.data.type` is `event.type`. -/
theorem normalized_event_inner_type_matches_outer (et : JVal) (mapper : JVal → JVal)
    (d : JVal) (hm : templatesLookup et = some mapper)
    (ht : truthy (mapper d) = true) :
    dataField (mapper d) "type" = (mapper d).get "type" := by
  cases et
  case str s =>
    simp only [templatesLookup] at hm
    unfold templates at hm
    split_ifs at hm
    all_goals first
      | exact Option.noConfusion hm
      | (injection hm with hm; subst hm; first
          | rfl
          | exact inner_type_ItemStatusChangedV2 d
          | exact inner_type_SaleStatusChangedV2 d)
  all_goals exact Option.noConfusion hm

/-- Witness for C10: checked on a concrete `SaleUpdated` event. -/
theorem normalized_event_inner_type_matches_outer_witness :
    dataField (SaleUpdated (.obj [("saleId", .str "s7")])) "type"
      = (SaleUpdated (.obj [("saleId", .str "s7")])).get "type" :=
  normalized_event_inner_type_matches_outer (.str "SaleUpdated") SaleUpdated
    (.obj [("saleId", .str "s7")]) rfl rfl

end Basta
